import Mathlib

/-!
# Upload handlers of the video service

A shallow embedding of `handler_upload_video.go` and `handler_upload_thumbnail.go`.

* Go `string` values are Lean `String`s; `strings.TrimPrefix` works on the
  character list.
* Go `int` is the 64-bit signed integer: values are `Int`, and the one
  arithmetic operation of the handlers (the division in
  `getVideoAspectRatio`) wraps its result to 64 bits.
* A handler run is a function from the world before the request to the world
  after it.  Everything the run cannot decide by itself (the request's
  headers, the outcome of every call into a library, a subprocess or a remote
  service) is read from an environment record.
-/

set_option linter.unusedVariables false

namespace Tubely

/-! ## Strings -/

/-- Go `strings.TrimPrefix(s, p)`: `s` without the leading `p` when `s` starts
with `p`, otherwise `s` itself. -/
def TrimPrefix (s p : String) : String :=
  if p.data.isPrefixOf s.data then ⟨s.data.drop p.data.length⟩ else s

/-! ## Machine integers -/

/-- Reduction of a mathematical integer to the Go `int` (64-bit, signed) that
holds its low 64 bits. -/
def wrapInt64 (x : Int) : Int :=
  (x + 2 ^ 63) % 2 ^ 64 - 2 ^ 63

/-- Outcome of a Go integer division `a / b`: a run-time panic when `b` is
zero, otherwise the quotient truncated toward zero (wrapped to 64 bits, which
only matters for the most negative `a` divided by `-1`). -/
def goDiv (a b : Int) : Option Int :=
  if b = 0 then none else some (wrapInt64 (a.tdiv b))

/-! ## Probing -/

/-- The two fields of an element of `videoStreams.Streams` that the code
reads.  Both are `omitempty` integers: a stream without geometry (an audio
stream) decodes with `Width = 0` and `Height = 0`.  The values are those of a
Go `int`; `unmarshalStreams` is the decoding step that only lets such values
through. -/
structure Stream where
  Width : Int
  Height : Int
deriving DecidableEq, Repr

/-- What running `ffprobe` and decoding its standard output gives:
the command fails, the output is not the expected JSON, or the output decodes
to a list of streams. -/
inductive ProbeOutput where
  | runFailed
  | malformed
  | parsed (streams : List Stream)
deriving DecidableEq, Repr

/-- How a Go call ends when it does not return a value: with a non-nil
`error`, or with a run-time panic that unwinds the caller. -/
inductive Failure where
  | error (msg : String)
  | panic (msg : String)
deriving DecidableEq, Repr

deriving instance DecidableEq for Except

/-- Model of `getVideoAspectRatio`: `cmd.Run` and `json.Unmarshal` errors are
returned; then `Streams[0]` is indexed (panic on an empty slice), `Height` is
divided by `Width` (panic on zero) and the quotient is compared with the
integer constants `9 / 16` and `16 / 9`. -/
def getVideoAspectRatio (out : ProbeOutput) : Except Failure String :=
  match out with
  | .runFailed => .error (.error "ffprobe failed")
  | .malformed => .error (.error "json.Unmarshal failed")
  | .parsed streams =>
    match streams with
    | [] => .error (.panic "index out of range [0] with length 0")
    | s0 :: _ =>
      match goDiv s0.Height s0.Width with
      | none => .error (.panic "integer divide by zero")
      | some ratio =>
        let landscape : Int := Int.tdiv 9 16
        let portrait : Int := Int.tdiv 16 9
        if ratio = landscape then .ok "9:16"
        else if ratio = portrait then .ok "16:9"
        else .ok "other"

/-- Whether an integer written in the probe's JSON fits a Go `int`. -/
def fitsInt (x : Int) : Bool :=
  decide (-(2 ^ 63) ≤ x) && decide (x < 2 ^ 63)

/-- The `json.Unmarshal` step of `getVideoAspectRatio` (lines 272-275) on
the `width` and `height` integers written for each stream (an absent field
reads as `0`): an integer that does not fit a Go `int` makes the call return
an error, otherwise the streams are decoded. -/
def unmarshalStreams (raw : List (Int × Int)) : ProbeOutput :=
  if raw.all (fun s => fitsInt s.1 && fitsInt s.2) then
    .parsed (raw.map (fun s => ⟨s.1, s.2⟩))
  else
    .malformed

/-- The classifier as section 4.1 of the specification words it: the exact
ratio `h / w` is compared with `9/16` and `16/9` up to a tolerance of `0.1`. -/
def classifyByTolerance (w h : Int) : String :=
  let r : ℚ := (h : ℚ) / (w : ℚ)
  if |r - 9 / 16| ≤ 1 / 10 then "9:16"
  else if |r - 16 / 9| ≤ 1 / 10 then "16:9"
  else "other"

/-! ## The world a handler runs in -/

/-- Identifiers (`uuid.UUID`), compared only for equality. -/
abbrev UUID := Nat

/-- Modelled from the spec: the `database.Video` record is declared outside the
two handler files.  Section 3 gives it an owner identifier, an optional video
URL and an optional thumbnail URL; the identifier is the key under which the
metadata store keeps it. -/
structure Video where
  ID : UUID
  UserID : UUID
  VideoURL : Option String
  ThumbnailURL : Option String
deriving DecidableEq, Repr

/-- The fields of `apiConfig` that the two handlers read. -/
structure apiConfig where
  jwtSecret : String
  s3Bucket : String
  s3Region : String
  s3CfDistribution : String
  assetsRoot : String
deriving DecidableEq, Repr

/-- A call that acts on something outside the handler, in the order issued.
For calls that can fail after being issued the flag tells whether they
succeeded. -/
inductive Effect where
  | createTemp (name : String)
  | osCreate (path : String)
  | osRemove (path : String)
  | ffmpeg (input output : String)
  | deleteObject (bucket key : String) (ok : Bool)
  | putObject (bucket key contentType : String) (ok : Bool)
  | updateVideo (v : Video) (ok : Bool)
deriving DecidableEq, Repr

/-- What a handler writes to its `http.ResponseWriter`. -/
inductive Response where
  | error (code : Nat) (msg : String)
  | json (code : Nat) (v : Video)
deriving DecidableEq, Repr

/-- Everything a handler can read or change: the local files that exist, the
keys stored in the bucket, the metadata store, the calls issued so far, the
responses written so far, and whether the handler goroutine is unwinding from
a panic. -/
structure World where
  files : List String
  bucket : List String
  db : List Video
  trace : List Effect
  responses : List Response
  panicked : Bool
deriving DecidableEq, Repr

/-- How a run of `ffmpeg` ends: exit status zero with the output file written,
or a non-zero exit status, after which the output file may or may not have been
left behind. -/
inductive RemuxOutcome where
  | ok
  | failed (outputLeft : Bool)
deriving DecidableEq, Repr

/-- The request and the behaviour of every collaborator during one handler
run.  `none` and `false` stand for a returned error. -/
structure Env where
  /-- Result of `uuid.Parse(r.PathValue("videoID"))`. -/
  videoID : Option UUID
  /-- Result of `auth.GetBearerToken(r.Header)`. -/
  bearerToken : Option String
  /-- The function `auth.ValidateJWT(token, secret)`. -/
  validateJWT : String → String → Option UUID
  /-- Result of `r.FormFile(...)`: the part's `Content-Type` header. -/
  formFile : Option String
  /-- The function `mime.ParseMediaType`, reduced to the media type. -/
  parseMediaType : String → Option String
  /-- Result of `os.CreateTemp("", "tubely-upload.mp4")`: the file's name. -/
  createTemp : Option String
  /-- Whether `io.Copy` succeeds. -/
  copy : Bool
  /-- Whether `tempFile.Seek` succeeds. -/
  seekStaged : Bool
  /-- The run of `ffmpeg` on the given input and output paths. -/
  ffmpeg : String → String → RemuxOutcome
  /-- Whether `os.Open` of the remuxed file succeeds. -/
  openProcessed : Bool
  /-- Whether `tempVideo.Seek` succeeds. -/
  seekProcessed : Bool
  /-- Result of `rand.Read` followed by the URL-safe base64 encoding. -/
  randName : Option String
  /-- The run of `ffprobe` on the given path. -/
  ffprobe : String → ProbeOutput
  /-- Whether `DeleteObject` succeeds. -/
  deleteObject : Bool
  /-- Whether `PutObject` succeeds. -/
  putObject : Bool
  /-- Whether `UpdateVideo` succeeds. -/
  updateVideo : Bool
  /-- The function `filepath.Join` on two elements. -/
  filepathJoin : String → String → String
  /-- Whether `os.Create` succeeds. -/
  osCreate : Bool

/-- Modelled from the spec: `respondWithError` is declared outside the two
handler files; section 6 has it answer with a structured error carrying a
status code and a message. -/
def respondWithError (w : World) (code : Nat) (msg : String) : World :=
  { w with responses := w.responses ++ [.error code msg] }

/-- Modelled from the spec: `respondWithJSON` is declared outside the two
handler files; section 6 has it answer with the record as structured data. -/
def respondWithJSON (w : World) (code : Nat) (v : Video) : World :=
  { w with responses := w.responses ++ [.json code v] }

/-- Modelled from the spec: `GetVideo` of the metadata store (section 6),
the record stored under the identifier or a not-found error. -/
def GetVideo (db : List Video) (id : UUID) : Option Video :=
  db.find? (fun v => v.ID == id)

/-- Modelled from the spec: `UpdateVideo` of the metadata store (section 6),
which replaces the record stored under the identifier of the one given, or
fails with a persistence error and changes nothing. -/
def UpdateVideo (ok : Bool) (w : World) (video : Video) : Bool × World :=
  if ok then
    (true, { w with
      db := w.db.map (fun v => if v.ID == video.ID then video else v),
      trace := w.trace ++ [.updateVideo video true] })
  else
    (false, { w with trace := w.trace ++ [.updateVideo video false] })

/-- Call of `os.Remove(path)`: the file no longer exists afterwards. -/
def osRemove (w : World) (path : String) : World :=
  { w with files := w.files.filter (fun f => f != path),
           trace := w.trace ++ [.osRemove path] }

/-- Call of `DeleteObject`: on success the key is no longer in the bucket
(deleting an absent key succeeds); on failure the bucket is as before. -/
def DeleteObject (ok : Bool) (w : World) (bucket key : String) : Bool × World :=
  if ok then
    (true, { w with bucket := w.bucket.filter (fun k => k != key),
                    trace := w.trace ++ [.deleteObject bucket key true] })
  else
    (false, { w with trace := w.trace ++ [.deleteObject bucket key false] })

/-- Call of `PutObject`: on success the key is in the bucket; on failure
the bucket is as before. -/
def PutObject (ok : Bool) (w : World) (bucket key contentType : String) : Bool × World :=
  if ok then
    (true, { w with bucket := key :: w.bucket.filter (fun k => k != key),
                    trace := w.trace ++ [.putObject bucket key contentType true] })
  else
    (false, { w with trace := w.trace ++ [.putObject bucket key contentType false] })

/-- Model of `processVideoForFastStart`: the output path is the input path
followed by `.processing`; `ffmpeg` runs; a failed run returns an error and
nothing is removed. -/
def processVideoForFastStart (env : Env) (filePath : String) (w : World) :
    Option String × World :=
  let tempPath := filePath ++ ".processing"
  let w1 := { w with trace := w.trace ++ [.ffmpeg filePath tempPath] }
  match env.ffmpeg filePath tempPath with
  | .failed outputLeft =>
    (none, if outputLeft then { w1 with files := tempPath :: w1.files } else w1)
  | .ok => (some tempPath, { w1 with files := tempPath :: w1.files })

/-! ## The video handler -/

/-- Lines 224-226 of `handlerUploadVideo`: the key of the previously stored
object.  `oldKey` is assigned three times, each time from the stored URL
itself, so the value used is the third one. -/
def oldKeyOf (cfg : apiConfig) (videoURL : String) : String :=
  let oldKey := TrimPrefix videoURL (cfg.s3Bucket ++ ",")
  let oldKey := TrimPrefix videoURL
    ("https://" ++ cfg.s3Bucket ++ ".s3." ++ cfg.s3Region ++ ".amazonaws.com/")
  let oldKey := TrimPrefix videoURL (cfg.s3CfDistribution ++ "/")
  oldKey

/-- Lines 212-220 of `handlerUploadVideo`: the storage key chosen by the
`switch` on the classification (the empty string when no case matches). -/
def filenameOf (ratio randName conType : String) : String :=
  if ratio = "9:16" then "landscape/" ++ randName ++ "." ++ TrimPrefix conType "video/"
  else if ratio = "16:9" then "portrait/" ++ randName ++ "." ++ TrimPrefix conType "video/"
  else if ratio = "other" then "other/" ++ randName ++ "." ++ TrimPrefix conType "video/"
  else ""

/-- Lines 222-259 of `handlerUploadVideo`: delete the previous object when
the record has a URL, put the new object, store the new URL, answer. -/
def storeAndPersist (cfg : apiConfig) (env : Env) (video : Video)
    (mediaType filename : String) (w : World) : World :=
  let deleted : Bool × World :=
    match video.VideoURL with
    | none => (true, w)
    | some url => DeleteObject env.deleteObject w cfg.s3Bucket (oldKeyOf cfg url)
  if !deleted.1 then
    respondWithError deleted.2 500 "error deleting old file"
  else
    let put := PutObject env.putObject deleted.2 cfg.s3Bucket filename mediaType
    if !put.1 then
      respondWithError put.2 500 "error uploading file to s3"
    else
      let videoUrl := cfg.s3CfDistribution ++ "/" ++ filename
      let video := { video with VideoURL := some videoUrl }
      let updated := UpdateVideo env.updateVideo put.2 video
      if !updated.1 then
        respondWithError updated.2 500 "error updating video URL in database"
      else
        respondWithJSON updated.2 200 video

/-- Lines 195-220 of `handlerUploadVideo`, followed by `storeAndPersist`: the
part of the body that runs once the remuxed file is open.  A panic raised by
`getVideoAspectRatio` ends the body without a response. -/
def uploadProcessed (cfg : apiConfig) (env : Env) (video : Video)
    (conType mediaType tempVideoName : String) (w : World) : World :=
  if !env.seekProcessed then
    respondWithError w 500 "error resetting file pointer in processed video"
  else
    match env.randName with
    | none => respondWithError w 500 "error creating filename"
    | some randName =>
      match getVideoAspectRatio (env.ffprobe tempVideoName) with
      | .error (.panic _) => { w with panicked := true }
      | .error (.error _) => respondWithError w 500 "error getting video aspect ratio"
      | .ok ratio =>
        storeAndPersist cfg env video mediaType (filenameOf ratio randName conType) w

/-- Lines 173-193 of `handlerUploadVideo`, followed by `uploadProcessed`: the
part of the body that runs once the staged file exists.  The removal of the
remuxed file is deferred only after `os.Open` has succeeded, and then runs
however `uploadProcessed` ends. -/
def processStaged (cfg : apiConfig) (env : Env) (video : Video)
    (conType mediaType tempFileName : String) (w : World) : World :=
  if !env.copy then
    respondWithError w 500 "error copying file data"
  else if !env.seekStaged then
    respondWithError w 500 "error resetting file pointer"
  else
    let processed := processVideoForFastStart env tempFileName w
    match processed.1 with
    | none => respondWithError processed.2 500 "error processing video for fast start"
    | some tempPath =>
      if !env.openProcessed then
        respondWithError processed.2 500 "error opening processed video"
      else
        osRemove (uploadProcessed cfg env video conType mediaType tempPath processed.2) tempPath

/-- Model of `handlerUploadVideo`.  The removal of the staged file is deferred
once `os.CreateTemp` has succeeded, and then runs however `processStaged`
ends. -/
def handlerUploadVideo (cfg : apiConfig) (env : Env) (w : World) : World :=
  match env.videoID with
  | none => respondWithError w 400 "Invalid video ID"
  | some videoID =>
    match env.bearerToken with
    | none => respondWithError w 401 "Couldn't find JWT"
    | some token =>
      match env.validateJWT token cfg.jwtSecret with
      | none => respondWithError w 401 "Couldn't validate JWT"
      | some userID =>
        match GetVideo w.db videoID with
        | none => respondWithError w 404 "video not found"
        | some video =>
          if video.UserID ≠ userID then
            respondWithError w 401 "video does not belong to this user"
          else
            match env.formFile with
            | none => respondWithError w 400 "invalid file type"
            | some conType =>
              match env.parseMediaType conType with
              | none => respondWithError w 400 "error parsing media type"
              | some mediaType =>
                if mediaType ≠ "video/mp4" then
                  respondWithError w 400 "invalid video file type, videos must be a .mp4"
                else
                  match env.createTemp with
                  | none => respondWithError w 500 "error creating temp file"
                  | some name =>
                    let w1 := { w with files := name :: w.files,
                                       trace := w.trace ++ [.createTemp name] }
                    osRemove (processStaged cfg env video conType mediaType name w1) name

/-! ## The thumbnail handler -/

/-- Model of `handlerUploadThumbnail`.  The branch for a media type that is
neither `image/png` nor `image/jpg` answers with an error and has no `return`:
the body goes on after it. -/
def handlerUploadThumbnail (cfg : apiConfig) (env : Env) (w : World) : World :=
  match env.videoID with
  | none => respondWithError w 400 "Invalid ID"
  | some videoID =>
    match env.bearerToken with
    | none => respondWithError w 401 "Couldn't find JWT"
    | some token =>
      match env.validateJWT token cfg.jwtSecret with
      | none => respondWithError w 401 "Couldn't validate JWT"
      | some userID =>
        match env.formFile with
        | none => respondWithError w 400 "Invalid file type"
        | some conType =>
          match GetVideo w.db videoID with
          | none => respondWithError w 404 "video not found"
          | some video =>
            if video.UserID ≠ userID then
              respondWithError w 401 "video does not belong to user"
            else
              match env.parseMediaType conType with
              | none => respondWithError w 400 "error parsing media type"
              | some mediaType =>
                let w1 :=
                  if mediaType ≠ "image/png" ∧ mediaType ≠ "image/jpg" then
                    respondWithError w 400
                      "invalid file format, thumbnails must be either png or jpg filetypes"
                  else w
                match env.randName with
                | none => respondWithError w1 500 "error creating filename"
                | some randName =>
                  let filename := randName ++ "." ++ TrimPrefix conType "image/"
                  let filePath := env.filepathJoin cfg.assetsRoot filename
                  if !env.osCreate then
                    respondWithError w1 500 "error creating file"
                  else
                    let w2 := { w1 with files := filePath :: w1.files,
                                        trace := w1.trace ++ [.osCreate filePath] }
                    if !env.copy then
                      respondWithError w2 500 "error copying image data"
                    else
                      let thumbnailURL := "http://localhost:8091/assets/" ++ filename
                      let video := { video with ThumbnailURL := some thumbnailURL }
                      let updated := UpdateVideo env.updateVideo w2 video
                      if !updated.1 then
                        respondWithError updated.2 500 "error updating video in database"
                      else
                        respondWithJSON updated.2 200 video

/-! ## Object-store calls of a run -/

/-- Whether a call is one to the object store. -/
def isStoreOp : Effect → Bool
  | .deleteObject _ _ _ => true
  | .putObject _ _ _ _ => true
  | _ => false

/-- The object-store calls among the calls issued, in order. -/
def storeOps (trace : List Effect) : List Effect :=
  trace.filter isStoreOp

/-- The object-store calls a run may add when the record has the video URL
`url`: none; or the failed `DeleteObject` of the old key alone; or the
successful `DeleteObject` of the old key followed by one `PutObject`. -/
def DeleteThenPut (cfg : apiConfig) (env : Env) (url : String)
    (before after : List Effect) : Prop :=
  storeOps after = storeOps before ∨
  (env.deleteObject = false ∧
    storeOps after =
      storeOps before ++ [.deleteObject cfg.s3Bucket (oldKeyOf cfg url) false]) ∨
  (env.deleteObject = true ∧ ∃ filename mediaType,
    storeOps after =
      storeOps before ++ [.deleteObject cfg.s3Bucket (oldKeyOf cfg url) true,
        .putObject cfg.s3Bucket filename mediaType env.putObject])

/-! ## Concrete runs used below -/

/-- A configuration with short names. -/
def cfg0 : apiConfig :=
  { jwtSecret := "secret", s3Bucket := "bkt", s3Region := "us-east-2",
    s3CfDistribution := "https://cdn.example", assetsRoot := "assets" }

/-- A record owned by user `7` that already has a video URL. -/
def video0 : Video :=
  { ID := 1, UserID := 7, VideoURL := some "https://cdn.example/other/old.mp4",
    ThumbnailURL := none }

/-- A world holding `video0` and its stored object. -/
def world0 : World :=
  { files := [], bucket := ["other/old.mp4"], db := [video0], trace := [],
    responses := [], panicked := false }

/-- A request by user `7` for record `1` with an MP4 part whose remuxed first
stream is 1920 wide and 1080 high, every collaborator call succeeding. -/
def env0 : Env :=
  { videoID := some 1, bearerToken := some "tok",
    validateJWT := fun _ _ => some 7,
    formFile := some "video/mp4",
    parseMediaType := fun s => some s,
    createTemp := some "/tmp/tubely-upload.mp4123",
    copy := true, seekStaged := true,
    ffmpeg := fun _ _ => .ok,
    openProcessed := true, seekProcessed := true,
    randName := some "R",
    ffprobe := fun _ => .parsed [⟨1920, 1080⟩],
    deleteObject := true, putObject := true, updateVideo := true,
    filepathJoin := fun a b => a ++ "/" ++ b,
    osCreate := true }

/-! ## Arithmetic of the classifier -/

/-- The integer constant `9 / 16` of the source is `0`. -/
lemma landscape_const : Int.tdiv 9 16 = 0 := by decide

/-- The integer constant `16 / 9` of the source is `1`. -/
lemma portrait_const : Int.tdiv 16 9 = 1 := by decide

/-- Wrapping leaves a value of the non-negative `int` range alone. -/
lemma wrapInt64_of_range {x : Int} (h0 : 0 ≤ x) (h1 : x < 2 ^ 63) : wrapInt64 x = x := by
  unfold wrapInt64
  omega

/-- Division of a non-negative `int` by a positive one neither panics nor
overflows: it is the floor of the quotient. -/
lemma goDiv_of_pos {a b : Int} (ha : 0 ≤ a) (ha' : a < 2 ^ 63) (hb : 0 < b) :
    goDiv a b = some (a / b) := by
  have hq0 : 0 ≤ a / b := Int.ediv_nonneg ha (le_of_lt hb)
  have hq1 : a / b ≤ a := Int.ediv_le_self b ha
  have hq2 : a / b < 2 ^ 63 := lt_of_le_of_lt hq1 ha'
  simp [goDiv, ne_of_gt hb, Int.tdiv_eq_ediv ha (le_of_lt hb), wrapInt64_of_range hq0 hq2]

/-- Scaling both operands by a positive factor does not change the quotient
the source computes. -/
lemma goDiv_scale {a b k : Int} (ha : 0 < a) (hb : 0 < b) (hk : 0 < k) :
    goDiv (k * a) (k * b) = goDiv a b := by
  have hka : 0 ≤ k * a := le_of_lt (Int.mul_pos hk ha)
  have hkb : 0 < k * b := Int.mul_pos hk hb
  simp [goDiv, ne_of_gt hb, ne_of_gt hk, Int.tdiv_eq_ediv hka (le_of_lt hkb),
    Int.tdiv_eq_ediv (le_of_lt ha) (le_of_lt hb), Int.mul_ediv_mul_of_pos _ _ hk]

/-! ## Strings and the metadata store -/

/-- A record found under an identifier carries that identifier. -/
lemma GetVideo_ID {db : List Video} {id : UUID} {v : Video}
    (h : GetVideo db id = some v) : v.ID = id := by
  have := List.find?_some h
  simpa using this

/-- After a record has been replaced, looking up its identifier gives the
replacement. -/
lemma GetVideo_map_update {db : List Video} {id : UUID} {v v' : Video}
    (h : GetVideo db id = some v) (hid : v'.ID = id) :
    GetVideo (db.map (fun x => if x.ID == v'.ID then v' else x)) id = some v' := by
  subst hid
  induction db with
  | nil => simp [GetVideo] at h
  | cons a t ih =>
    unfold GetVideo at h ih ⊢
    rw [List.map_cons]
    by_cases ha : a.ID = v'.ID
    · have hb : (a.ID == v'.ID) = true := by simpa using ha
      rw [hb, if_pos rfl, List.find?_cons_of_pos]
      simp
    · have hb : (a.ID == v'.ID) = false := by simpa using ha
      rw [List.find?_cons_of_neg _ (by simp [ha])] at h
      rw [hb, if_neg (by simp), List.find?_cons_of_neg _ (by simp [ha])]
      exact ih h

/-- A 1920x1080 first stream is classified "9:16". -/
lemma getVideoAspectRatio_full_hd (rest : List Stream) :
    getVideoAspectRatio (.parsed (⟨1920, 1080⟩ :: rest)) = .ok "9:16" := rfl

/-- The extension the handler derives from the header `video/mp4`. -/
lemma TrimPrefix_video_mp4 : TrimPrefix "video/mp4" "video/" = "mp4" := by decide

/-- The key built for the "9:16" class from the header `video/mp4`. -/
lemma filenameOf_landscape_mp4 (randName : String) :
    filenameOf "9:16" randName "video/mp4" = "landscape/" ++ randName ++ ".mp4" := by
  have h : ("." : String) ++ "mp4" = ".mp4" := by decide
  simp [filenameOf, TrimPrefix_video_mp4, String.append_assoc, h]

/-! ## Stage lemmas for the order of object-store calls -/

/-- Removing a local file is not an object-store call. -/
lemma storeOps_osRemove (w : World) (path : String) :
    storeOps (osRemove w path).trace = storeOps w.trace := by
  simp [osRemove, storeOps, List.filter_append, isStoreOp]

/-- Answering with an error is not an object-store call. -/
lemma storeOps_respondWithError (w : World) (code : Nat) (msg : String) :
    storeOps (respondWithError w code msg).trace = storeOps w.trace := rfl

/-- Running `ffmpeg` is not an object-store call. -/
lemma storeOps_processVideoForFastStart (env : Env) (filePath : String) (w : World) :
    storeOps (processVideoForFastStart env filePath w).2.trace = storeOps w.trace := by
  simp only [processVideoForFastStart]
  split
  · split <;> simp [storeOps, List.filter_append, isStoreOp]
  · simp [storeOps, List.filter_append, isStoreOp]

/-- The store stage on a record with a URL: the delete comes first, and the
put is issued only when the delete succeeded. -/
lemma storeAndPersist_order (cfg : apiConfig) (env : Env) (video : Video)
    (mediaType filename url : String) (w : World) (hurl : video.VideoURL = some url) :
    DeleteThenPut cfg env url w.trace
      (storeAndPersist cfg env video mediaType filename w).trace := by
  unfold DeleteThenPut
  cases hd : env.deleteObject
  · right; left
    simp [storeAndPersist, hurl, hd, DeleteObject, respondWithError, storeOps,
      List.filter_append, isStoreOp]
  · right; right
    refine ⟨rfl, filename, mediaType, ?_⟩
    cases hp : env.putObject <;> cases hu : env.updateVideo <;>
      simp [storeAndPersist, hurl, hd, hp, hu, DeleteObject, PutObject, UpdateVideo,
        respondWithError, respondWithJSON, storeOps, List.filter_append, isStoreOp]

/-- The body after the remuxed file is open keeps the order of the store stage. -/
lemma uploadProcessed_order (cfg : apiConfig) (env : Env) (video : Video)
    (conType mediaType tempVideoName url : String) (w : World)
    (hurl : video.VideoURL = some url) :
    DeleteThenPut cfg env url w.trace
      (uploadProcessed cfg env video conType mediaType tempVideoName w).trace := by
  unfold uploadProcessed
  split
  · exact Or.inl rfl
  · split
    · exact Or.inl rfl
    · split
      · exact Or.inl rfl
      · exact Or.inl rfl
      · exact storeAndPersist_order cfg env video mediaType _ url w hurl

/-- The order only depends on the object-store calls already issued. -/
lemma DeleteThenPut_congr {cfg : apiConfig} {env : Env} {url : String}
    {b b' a a' : List Effect} (hb : storeOps b' = storeOps b) (ha : storeOps a' = storeOps a)
    (h : DeleteThenPut cfg env url b a) : DeleteThenPut cfg env url b' a' := by
  unfold DeleteThenPut at h ⊢
  rw [hb, ha]
  exact h

/-- The body after the staged file exists keeps the order of the store stage. -/
lemma processStaged_order (cfg : apiConfig) (env : Env) (video : Video)
    (conType mediaType tempFileName url : String) (w : World)
    (hurl : video.VideoURL = some url) :
    DeleteThenPut cfg env url w.trace
      (processStaged cfg env video conType mediaType tempFileName w).trace := by
  have hp := storeOps_processVideoForFastStart env tempFileName w
  unfold processStaged
  split
  · exact Or.inl rfl
  · split
    · exact Or.inl rfl
    · simp only
      split
      · exact Or.inl (by rw [storeOps_respondWithError, hp])
      · split
        · exact Or.inl (by rw [storeOps_respondWithError, hp])
        · exact DeleteThenPut_congr hp.symm (storeOps_osRemove _ _)
            (uploadProcessed_order cfg env video conType mediaType _ url _ hurl)

/-- A positive value below a bound of the `int` range fits a Go `int`. -/
lemma fitsInt_of_pos {x : Int} (h0 : 0 < x) (h1 : x < 2 ^ 63) : fitsInt x = true := by
  simp only [fitsInt, Bool.and_eq_true, decide_eq_true_eq]
  omega

/-- A positive value is at most its product with a positive factor. -/
lemma le_scale {x k : Int} (hx : 0 < x) (hk : 0 < k) : x ≤ k * x := by
  have h1 : (1 : Int) ≤ k := hk
  nlinarith

/-! ## Classification -/

/-- C1: on a square 1000x1000 first stream (exact ratio 1, farther than 0.1
from both 9/16 and 16/9) `getVideoAspectRatio` answers "16:9", where the
tolerance classifier of the specification answers "other"; on a 1000x100
stream (ratio 0.1) it answers "9:16", again against "other". -/
theorem getVideoAspectRatio_square_is_not_other :
    getVideoAspectRatio (.parsed [⟨1000, 1000⟩]) = .ok "16:9" ∧
    classifyByTolerance 1000 1000 = "other" ∧
    getVideoAspectRatio (.parsed [⟨1000, 100⟩]) = .ok "9:16" ∧
    classifyByTolerance 1000 100 = "other" := by
  refine ⟨by decide, ?_, by decide, ?_⟩
  · simp [classifyByTolerance]; norm_num [abs_le]
  · simp [classifyByTolerance]; norm_num [abs_le]

/-- C8: when the probe output decodes to an empty stream list,
`getVideoAspectRatio` does not return an error: indexing `Streams[0]` panics;
a first stream of width zero panics in the division; and the handler run on
the empty list unwinds without writing a response. -/
theorem getVideoAspectRatio_empty_streams_panics :
    getVideoAspectRatio (.parsed []) =
      .error (.panic "index out of range [0] with length 0") ∧
    getVideoAspectRatio (.parsed [⟨0, 0⟩]) = .error (.panic "integer divide by zero") ∧
    (handlerUploadVideo cfg0 { env0 with ffprobe := fun _ => .parsed [] } world0).panicked
      = true ∧
    (handlerUploadVideo cfg0 { env0 with ffprobe := fun _ => .parsed [] } world0).responses
      = [] := by
  decide

/-- C10 (counterexample): for the 1920x1080 first stream the classification is
"9:16", not "other". -/
theorem getVideoAspectRatio_not_always_other :
    (0 : Int) < 1920 ∧ (0 : Int) < 1080 ∧
    getVideoAspectRatio (.parsed [⟨1920, 1080⟩]) = .ok "9:16" ∧
    getVideoAspectRatio (.parsed [⟨1920, 1080⟩]) ≠ .ok "other" := by
  decide

/-- C10 (amended): for a first stream of positive width `w` and height `h`
(values of the `int` range), the integer constants `9 / 16 = 0` and
`16 / 9 = 1` make the classification "9:16" when `h < w`, "16:9" when
`w ≤ h < 2 * w`, and "other" when `2 * w ≤ h`. -/
theorem getVideoAspectRatio_integer_classes (w h : Int) (rest : List Stream)
    (hw : 0 < w) (hh : 0 < h) (hmax : h < 2 ^ 63) :
    getVideoAspectRatio (.parsed (⟨w, h⟩ :: rest)) =
      .ok (if h < w then "9:16" else if h < 2 * w then "16:9" else "other") := by
  have hq0 : 0 ≤ h / w := Int.ediv_nonneg (le_of_lt hh) (le_of_lt hw)
  have h1 : h / w < 1 ↔ h < 1 * w := Int.ediv_lt_iff_lt_mul hw
  have h2 : h / w < 2 ↔ h < 2 * w := Int.ediv_lt_iff_lt_mul hw
  simp only [getVideoAspectRatio, goDiv_of_pos (le_of_lt hh) hmax hw, landscape_const,
    portrait_const]
  by_cases c1 : h < w
  · have : h / w = 0 := by omega
    simp [this, c1]
  · by_cases c2 : h < 2 * w
    · have : h / w = 1 := by omega
      simp [this, c1, c2]
    · have e0 : h / w ≠ 0 := by omega
      have e1 : h / w ≠ 1 := by omega
      simp [e0, e1, c1, c2]

/-- Witness for C10 (amended): a 1080x1920 stream is classified "16:9". -/
theorem getVideoAspectRatio_integer_classes_witness :
    getVideoAspectRatio (.parsed (⟨1080, 1920⟩ :: [])) = .ok "16:9" :=
  getVideoAspectRatio_integer_classes 1080 1920 [] (by decide) (by decide) (by decide)

/-- C9 (counterexample): with `w = h = 2 ^ 62` and `k = 2` the stream of
width `k * w` and height `k * h` does not fit a Go `int`, so decoding fails and
`getVideoAspectRatio` returns an error, while the stream of width `w` and
height `h` is classified "16:9". -/
theorem getVideoAspectRatio_scale_out_of_range :
    (0 : Int) < 2 ^ 62 ∧ (0 : Int) < 2 ∧
    getVideoAspectRatio (unmarshalStreams [(2 * 2 ^ 62, 2 * 2 ^ 62)]) =
      .error (.error "json.Unmarshal failed") ∧
    getVideoAspectRatio (unmarshalStreams [(2 ^ 62, 2 ^ 62)]) = .ok "16:9" ∧
    getVideoAspectRatio (unmarshalStreams [(2 * 2 ^ 62, 2 * 2 ^ 62)]) ≠
      getVideoAspectRatio (unmarshalStreams [(2 ^ 62, 2 ^ 62)]) := by
  decide

/-- C9 (amended): for all positive `w`, `h` and `k` such that `k * w` and
`k * h` fit a Go `int`, the result `getVideoAspectRatio` computes from probe
output whose first stream has width `k * w` and height `k * h` is the one it
computes when that stream has width `w` and height `h`. -/
theorem getVideoAspectRatio_scale_invariant_in_range (w h k : Int) (rest : List (Int × Int))
    (hw : 0 < w) (hh : 0 < h) (hk : 0 < k)
    (hkw : k * w < 2 ^ 63) (hkh : k * h < 2 ^ 63) :
    getVideoAspectRatio (unmarshalStreams ((k * w, k * h) :: rest)) =
      getVideoAspectRatio (unmarshalStreams ((w, h) :: rest)) := by
  have fw : fitsInt w = true := fitsInt_of_pos hw (lt_of_le_of_lt (le_scale hw hk) hkw)
  have fh : fitsInt h = true := fitsInt_of_pos hh (lt_of_le_of_lt (le_scale hh hk) hkh)
  have fkw : fitsInt (k * w) = true := fitsInt_of_pos (Int.mul_pos hk hw) hkw
  have fkh : fitsInt (k * h) = true := fitsInt_of_pos (Int.mul_pos hk hh) hkh
  cases hr : rest.all (fun s => fitsInt s.1 && fitsInt s.2)
  · simp [unmarshalStreams, List.all_cons, fw, fh, fkw, fkh, hr]
  · simp only [unmarshalStreams, List.all_cons, fw, fh, fkw, fkh, hr, Bool.and_self,
      if_true, List.map_cons, getVideoAspectRatio, goDiv_scale hh hw hk]

/-- Witness for C9 (amended): 3840x2160 is classified as 1920x1080 is, namely
"9:16". -/
theorem getVideoAspectRatio_scale_invariant_in_range_witness :
    getVideoAspectRatio (unmarshalStreams ((2 * 1920, 2 * 1080) :: [])) =
      getVideoAspectRatio (unmarshalStreams ((1920, 1080) :: [])) ∧
    getVideoAspectRatio (unmarshalStreams ((1920, 1080) :: [])) = .ok "9:16" :=
  ⟨getVideoAspectRatio_scale_invariant_in_range 1920 1080 2 [] (by decide) (by decide)
    (by decide) (by decide) (by decide), by decide⟩

/-! ## Key recovery -/

/-- C2: when the authenticated caller is not the owner of the target record,
`handlerUploadVideo` answers 401 and does nothing else: the local files, the
bucket, the metadata store and the list of issued calls (no temporary file,
no `PutObject`, no `DeleteObject`, no `UpdateVideo`) are as before. -/
theorem handlerUploadVideo_not_owner (cfg : apiConfig) (env : Env) (w : World)
    (videoID userID : UUID) (token : String) (video : Video)
    (hid : env.videoID = some videoID)
    (htok : env.bearerToken = some token)
    (hjwt : env.validateJWT token cfg.jwtSecret = some userID)
    (hget : GetVideo w.db videoID = some video)
    (hown : video.UserID ≠ userID) :
    (handlerUploadVideo cfg env w).responses =
      w.responses ++ [.error 401 "video does not belong to this user"] ∧
    (handlerUploadVideo cfg env w).trace = w.trace ∧
    (handlerUploadVideo cfg env w).files = w.files ∧
    (handlerUploadVideo cfg env w).bucket = w.bucket ∧
    (handlerUploadVideo cfg env w).db = w.db ∧
    (handlerUploadVideo cfg env w).panicked = w.panicked := by
  simp [handlerUploadVideo, hid, htok, hjwt, hget, hown, respondWithError]

/-- Witness for C2: user `8` uploads to the record of user `7`. -/
theorem handlerUploadVideo_not_owner_witness :
    (handlerUploadVideo cfg0 { env0 with validateJWT := fun _ _ => some 8 } world0).responses =
      world0.responses ++ [.error 401 "video does not belong to this user"] ∧
    (handlerUploadVideo cfg0 { env0 with validateJWT := fun _ _ => some 8 } world0).trace =
      world0.trace ∧
    (handlerUploadVideo cfg0 { env0 with validateJWT := fun _ _ => some 8 } world0).files =
      world0.files ∧
    (handlerUploadVideo cfg0 { env0 with validateJWT := fun _ _ => some 8 } world0).bucket =
      world0.bucket ∧
    (handlerUploadVideo cfg0 { env0 with validateJWT := fun _ _ => some 8 } world0).db =
      world0.db ∧
    (handlerUploadVideo cfg0 { env0 with validateJWT := fun _ _ => some 8 } world0).panicked =
      world0.panicked :=
  handlerUploadVideo_not_owner cfg0 { env0 with validateJWT := fun _ _ => some 8 } world0
    1 8 "tok" video0 rfl rfl rfl (by decide) (by decide)

/-! ## Temporary files -/

/-- C5: in the run where `ffmpeg` succeeds and `os.Open` of the remuxed file
fails, the handler answers 500 and returns with the remuxed file
`staged-name + ".processing"` still on disk; the same holds when `ffmpeg`
fails after leaving its output file behind. -/
theorem handlerUploadVideo_leaves_processing_file :
    (handlerUploadVideo cfg0 { env0 with openProcessed := false } world0).files =
      ["/tmp/tubely-upload.mp4123" ++ ".processing"] ∧
    (handlerUploadVideo cfg0 { env0 with openProcessed := false } world0).responses =
      [.error 500 "error opening processed video"] ∧
    (handlerUploadVideo cfg0 { env0 with ffmpeg := fun _ _ => .failed true } world0).files =
      ["/tmp/tubely-upload.mp4123" ++ ".processing"] ∧
    (handlerUploadVideo cfg0 { env0 with ffmpeg := fun _ _ => .failed true } world0).responses =
      [.error 500 "error processing video for fast start"] := by
  decide

/-! ## The thumbnail media type -/

/-- C7: for an owner's thumbnail upload of media type `image/gif`, the handler
writes the 400 validation error and then goes on: it creates the file under the
assets root, calls `UpdateVideo`, and the stored record's thumbnail URL
changes. -/
theorem handlerUploadThumbnail_bad_type_still_stores :
    (handlerUploadThumbnail cfg0 { env0 with formFile := some "image/gif" } world0) =
      { files := ["assets/R.gif"],
        bucket := ["other/old.mp4"],
        db := [{ video0 with ThumbnailURL := some "http://localhost:8091/assets/R.gif" }],
        trace := [.osCreate "assets/R.gif",
          .updateVideo
            { video0 with ThumbnailURL := some "http://localhost:8091/assets/R.gif" } true],
        responses :=
          [.error 400 "invalid file format, thumbnails must be either png or jpg filetypes",
           .json 200 { video0 with ThumbnailURL := some "http://localhost:8091/assets/R.gif" }],
        panicked := false } := by
  decide

/-! ## The successful landscape upload -/

/-- C6: for a request by the record's owner with Content-Type `video/mp4`
whose remuxed file's first stream is 1920 wide and 1080 high, every
collaborator call succeeding, `handlerUploadVideo` answers 200 with the
record whose video URL is `s3CfDistribution + "/" + key`, where
`key = "landscape/" + token + ".mp4"`; the metadata store holds that record
and the bucket holds `key`. -/
theorem handlerUploadVideo_landscape_success (cfg : apiConfig) (env : Env) (w : World)
    (videoID : UUID) (token name randName : String) (video : Video) (rest : List Stream)
    (hid : env.videoID = some videoID)
    (htok : env.bearerToken = some token)
    (hjwt : env.validateJWT token cfg.jwtSecret = some video.UserID)
    (hget : GetVideo w.db videoID = some video)
    (hform : env.formFile = some "video/mp4")
    (hmime : env.parseMediaType "video/mp4" = some "video/mp4")
    (htemp : env.createTemp = some name)
    (hcopy : env.copy = true)
    (hseek : env.seekStaged = true)
    (hffmpeg : env.ffmpeg name (name ++ ".processing") = .ok)
    (hopen : env.openProcessed = true)
    (hseek' : env.seekProcessed = true)
    (hrand : env.randName = some randName)
    (hprobe : env.ffprobe (name ++ ".processing") = .parsed (⟨1920, 1080⟩ :: rest))
    (hdel : env.deleteObject = true)
    (hput : env.putObject = true)
    (hupd : env.updateVideo = true) :
    (handlerUploadVideo cfg env w).responses = w.responses ++
      [.json 200 { video with
        VideoURL := some (cfg.s3CfDistribution ++ "/" ++ ("landscape/" ++ randName ++ ".mp4")) }] ∧
    GetVideo (handlerUploadVideo cfg env w).db videoID =
      some { video with
        VideoURL := some (cfg.s3CfDistribution ++ "/" ++ ("landscape/" ++ randName ++ ".mp4")) } ∧
    ("landscape/" ++ randName ++ ".mp4") ∈ (handlerUploadVideo cfg env w).bucket := by
  have hvid : video.ID = videoID := GetVideo_ID hget
  have hrun : handlerUploadVideo cfg env w =
      osRemove (osRemove (storeAndPersist cfg env video "video/mp4"
        ("landscape/" ++ randName ++ ".mp4")
        { w with files := (name ++ ".processing") :: name :: w.files,
                 trace := w.trace ++ [.createTemp name] ++
                   [.ffmpeg name (name ++ ".processing")] })
        (name ++ ".processing")) name := by
    simp [handlerUploadVideo, processStaged, processVideoForFastStart, uploadProcessed,
      hid, htok, hjwt, hget, hform, hmime, htemp, hcopy, hseek, hffmpeg, hopen, hseek',
      hrand, hprobe, getVideoAspectRatio_full_hd, filenameOf_landscape_mp4]
  rw [hrun]
  refine ⟨?_, ?_, ?_⟩
  · cases hurl : video.VideoURL <;>
      simp [storeAndPersist, hurl, DeleteObject, PutObject, UpdateVideo, hdel, hput, hupd,
        osRemove, respondWithJSON]
  · have hdb := @GetVideo_map_update w.db videoID video
      { video with
        VideoURL := some (cfg.s3CfDistribution ++ "/" ++ ("landscape/" ++ randName ++ ".mp4")) }
      hget hvid
    cases hurl : video.VideoURL <;>
      simpa [storeAndPersist, hurl, DeleteObject, PutObject, UpdateVideo, hdel, hput, hupd,
        osRemove, respondWithJSON] using hdb
  · cases hurl : video.VideoURL <;>
      simp [storeAndPersist, hurl, DeleteObject, PutObject, UpdateVideo, hdel, hput, hupd,
        osRemove, respondWithJSON]

/-- Witness for C6: the run `env0` on `world0`. -/
theorem handlerUploadVideo_landscape_success_witness :
    (handlerUploadVideo cfg0 env0 world0).responses = world0.responses ++
      [.json 200 { video0 with
        VideoURL := some (cfg0.s3CfDistribution ++ "/" ++ ("landscape/" ++ "R" ++ ".mp4")) }] ∧
    GetVideo (handlerUploadVideo cfg0 env0 world0).db 1 =
      some { video0 with
        VideoURL := some (cfg0.s3CfDistribution ++ "/" ++ ("landscape/" ++ "R" ++ ".mp4")) } ∧
    ("landscape/" ++ "R" ++ ".mp4") ∈ (handlerUploadVideo cfg0 env0 world0).bucket :=
  handlerUploadVideo_landscape_success cfg0 env0 world0 1 "tok" "/tmp/tubely-upload.mp4123" "R"
    video0 [] rfl rfl rfl (by decide) rfl rfl rfl rfl rfl rfl rfl rfl rfl rfl rfl rfl rfl

/-! ## Order of the object-store calls -/

/-- C3 (counterexample): on a record with a video URL, the run in which every
call succeeds issues `DeleteObject` before `PutObject`; and in the run in which
`PutObject` fails the `DeleteObject` has already been issued and has succeeded,
so the previously stored object is gone. -/
theorem handlerUploadVideo_delete_precedes_put :
    video0.VideoURL = some "https://cdn.example/other/old.mp4" ∧
    "other/old.mp4" ∈ world0.bucket ∧
    storeOps (handlerUploadVideo cfg0 env0 world0).trace =
      [.deleteObject "bkt" "other/old.mp4" true,
       .putObject "bkt" "landscape/R.mp4" "video/mp4" true] ∧
    storeOps (handlerUploadVideo cfg0 { env0 with putObject := false } world0).trace =
      [.deleteObject "bkt" "other/old.mp4" true,
       .putObject "bkt" "landscape/R.mp4" "video/mp4" false] ∧
    "other/old.mp4" ∉
      (handlerUploadVideo cfg0 { env0 with putObject := false } world0).bucket := by
  decide

/-- C3 (amended): in every run of `handlerUploadVideo` on a record that already
has a video URL, the object-store calls the run adds are: none; or the failed
`DeleteObject` of the old key alone (no `PutObject` is issued); or the
successful `DeleteObject` of the old key followed by the `PutObject` of the
new object.  So `DeleteObject` precedes `PutObject`, and `PutObject` is issued
only after `DeleteObject` has succeeded. -/
theorem handlerUploadVideo_store_order (cfg : apiConfig) (env : Env) (w : World)
    (videoID : UUID) (video : Video) (url : String)
    (hid : env.videoID = some videoID)
    (hget : GetVideo w.db videoID = some video)
    (hurl : video.VideoURL = some url) :
    storeOps (handlerUploadVideo cfg env w).trace = storeOps w.trace ∨
    (env.deleteObject = false ∧
      storeOps (handlerUploadVideo cfg env w).trace =
        storeOps w.trace ++ [.deleteObject cfg.s3Bucket (oldKeyOf cfg url) false]) ∨
    (env.deleteObject = true ∧ ∃ filename mediaType,
      storeOps (handlerUploadVideo cfg env w).trace =
        storeOps w.trace ++ [.deleteObject cfg.s3Bucket (oldKeyOf cfg url) true,
          .putObject cfg.s3Bucket filename mediaType env.putObject]) := by
  show DeleteThenPut cfg env url w.trace (handlerUploadVideo cfg env w).trace
  unfold handlerUploadVideo
  simp only [hid, hget]
  repeat' split
  all_goals first
    | exact Or.inl rfl
    | skip
  refine DeleteThenPut_congr ?_ (storeOps_osRemove _ _)
    (processStaged_order cfg env video _ _ _ url _ hurl)
  simp [storeOps, List.filter_append, isStoreOp]

/-- Witness for C3 (amended): the run `env0` on `world0` issues the successful
delete of the old key and then the put. -/
theorem handlerUploadVideo_store_order_witness :
    storeOps (handlerUploadVideo cfg0 env0 world0).trace = storeOps world0.trace ∨
    (env0.deleteObject = false ∧
      storeOps (handlerUploadVideo cfg0 env0 world0).trace =
        storeOps world0.trace ++
          [.deleteObject cfg0.s3Bucket
            (oldKeyOf cfg0 "https://cdn.example/other/old.mp4") false]) ∨
    (env0.deleteObject = true ∧ ∃ filename mediaType,
      storeOps (handlerUploadVideo cfg0 env0 world0).trace =
        storeOps world0.trace ++
          [.deleteObject cfg0.s3Bucket
            (oldKeyOf cfg0 "https://cdn.example/other/old.mp4") true,
           .putObject cfg0.s3Bucket filename mediaType env0.putObject]) :=
  handlerUploadVideo_store_order cfg0 env0 world0 1 video0
    "https://cdn.example/other/old.mp4" rfl (by decide) rfl

end Tubely
